import Mathlib

/-!
Verification of the ingestion-and-classification pipeline of the
`personal-finance` service against its specification.

The development shallowly embeds the Python sources:
  * `app/services/csv_parser.py` — record normalizer, dedup filter, transfer
    detector, persistence helper;
  * `app/routers/upload.py` — upload entry point;
  * `app/routers/categorize.py` — background classification task runner and
    registry.

Conventions of the embedding:
  * Python `Decimal` values are modelled by `PyDecimal` (sign, coefficient
    digits, exponent), exactly the data `decimal.Decimal` stores for the plain
    literals produced by bank statements (no exponent/NaN/Infinity literals,
    which these CSV amount cells never contain).
  * Python `datetime.date` is modelled by `PyDate`.
  * Machine-level hashing (`hashlib.sha256`) is implemented bit-faithfully
    over `Nat` bytes; `utf8Bytes` mirrors `str.encode("utf-8")`.
  * The relational store is modelled as a list of rows; its
    `(transaction_id, source_account)` uniqueness constraint
    (`uix_transaction_source` in `app/models.py`) is enforced by the insert
    model.
  * The external classification service and store availability are inputs
    (`classify`, `qfail`): the code under verification treats both as opaque
    collaborators that may fail.
  * Python truthiness is modelled explicitly where the code relies on it
    (`x or y` on `Decimal`/`str`, `if not transactions`, …).
-/

/-! ## SHA-256 over byte lists (bytes are `Nat < 256`, words are `Nat < 2^32`) -/

def w32 : Nat := 4294967296

def rotr32 (n x : Nat) : Nat :=
  ((x >>> n) ||| (x <<< (32 - n))) % w32

def bsig0 (x : Nat) : Nat := (rotr32 2 x) ^^^ (rotr32 13 x) ^^^ (rotr32 22 x)

def bsig1 (x : Nat) : Nat := (rotr32 6 x) ^^^ (rotr32 11 x) ^^^ (rotr32 25 x)

def ssig0 (x : Nat) : Nat := (rotr32 7 x) ^^^ (rotr32 18 x) ^^^ (x >>> 3)

def ssig1 (x : Nat) : Nat := (rotr32 17 x) ^^^ (rotr32 19 x) ^^^ (x >>> 10)

def chf (x y z : Nat) : Nat := (x &&& y) ^^^ ((x ^^^ (w32 - 1)) &&& z)

def majf (x y z : Nat) : Nat := (x &&& y) ^^^ (x &&& z) ^^^ (y &&& z)

/-- The 64 round constants of FIPS 180-4 section 4.2.2, written in
decimal. -/
def k256 : List Nat :=
  [1116352408, 1899447441, 3049323471, 3921009573, 961987163, 1508970993,
   2453635748, 2870763221, 3624381080, 310598401, 607225278, 1426881987,
   1925078388, 2162078206, 2614888103, 3248222580, 3835390401, 4022224774,
   264347078, 604807628, 770255983, 1249150122, 1555081692, 1996064986,
   2554220882, 2821834349, 2952996808, 3210313671, 3336571891, 3584528711,
   113926993, 338241895, 666307205, 773529912, 1294757372, 1396182291,
   1695183700, 1986661051, 2177026350, 2456956037, 2730485921, 2820302411,
   3259730800, 3345764771, 3516065817, 3600352804, 4094571909, 275423344,
   430227734, 506948616, 659060556, 883997877, 958139571, 1322822218,
   1537002063, 1747873779, 1955562222, 2024104815, 2227730452, 2361852424,
   2428436474, 2756734187, 3204031479, 3329325298]

/-- The initial hash value of FIPS 180-4 section 5.3.3, written in
decimal. -/
def h256init : List Nat :=
  [1779033703, 3144134277, 1013904242, 2773480762,
   1359893119, 2600822924, 528734635, 1541459225]

/-- Group a byte list into big-endian 32-bit words (4 bytes each). -/
def bytesToWords : List Nat → List Nat
  | b0 :: b1 :: b2 :: b3 :: rest => (((b0 * 256 + b1) * 256 + b2) * 256 + b3) :: bytesToWords rest
  | _ => []

/-- Extend the 16-word message schedule; `acc` holds the words so far, most recent first. -/
def extendLoop : Nat → List Nat → List Nat
  | 0, acc => acc.reverse
  | k + 1, acc =>
    let w := (ssig1 (acc.getD 1 0) + acc.getD 6 0 + ssig0 (acc.getD 14 0) + acc.getD 15 0) % w32
    extendLoop k (w :: acc)

structure Sha2St where
  a : Nat
  b : Nat
  c : Nat
  d : Nat
  e : Nat
  f : Nat
  g : Nat
  h : Nat

def sha256rounds : List (Nat × Nat) → Sha2St → Sha2St
  | [], st => st
  | (w, k) :: rest, st =>
    let t1 := (st.h + bsig1 st.e + chf st.e st.f st.g + w + k) % w32
    let t2 := (bsig0 st.a + majf st.a st.b st.c) % w32
    sha256rounds rest ⟨(t1 + t2) % w32, st.a, st.b, st.c, (st.d + t1) % w32, st.e, st.f, st.g⟩

def compressBlock (hs : List Nat) (block : List Nat) : List Nat :=
  let ws := extendLoop 48 (bytesToWords block).reverse
  let st0 : Sha2St := ⟨hs.getD 0 0, hs.getD 1 0, hs.getD 2 0, hs.getD 3 0,
                       hs.getD 4 0, hs.getD 5 0, hs.getD 6 0, hs.getD 7 0⟩
  let st := sha256rounds (ws.zip k256) st0
  [(hs.getD 0 0 + st.a) % w32, (hs.getD 1 0 + st.b) % w32, (hs.getD 2 0 + st.c) % w32,
   (hs.getD 3 0 + st.d) % w32, (hs.getD 4 0 + st.e) % w32, (hs.getD 5 0 + st.f) % w32,
   (hs.getD 6 0 + st.g) % w32, (hs.getD 7 0 + st.h) % w32]

/-- Standard SHA-256 padding: append `0x80`, zeros to 56 mod 64, then the
8-byte big-endian bit length. -/
def sha256pad (msg : List Nat) : List Nat :=
  let zeros := (56 + 64 - ((msg.length + 1) % 64)) % 64
  let bitLen := msg.length * 8
  msg ++ [0x80] ++ List.replicate zeros 0 ++
    [(bitLen >>> 56) % 256, (bitLen >>> 48) % 256, (bitLen >>> 40) % 256, (bitLen >>> 32) % 256,
     (bitLen >>> 24) % 256, (bitLen >>> 16) % 256, (bitLen >>> 8) % 256, bitLen % 256]

/-- Process `k` 64-byte blocks of the padded message. -/
def sha256blocks : Nat → List Nat → List Nat → List Nat
  | 0, hs, _ => hs
  | k + 1, hs, padded => sha256blocks k (compressBlock hs (padded.take 64)) (padded.drop 64)

def wordToBytes (w : Nat) : List Nat :=
  [(w >>> 24) % 256, (w >>> 16) % 256, (w >>> 8) % 256, w % 256]

def sha256bytes (msg : List Nat) : List Nat :=
  let padded := sha256pad msg
  ((sha256blocks (padded.length / 64) h256init padded).map wordToBytes).flatten

def hexChar (n : Nat) : Char :=
  if n < 10 then Char.ofNat (48 + n) else Char.ofNat (87 + n)

def bytesToHex (bs : List Nat) : String :=
  String.mk (bs.foldr (fun b acc => hexChar (b / 16) :: hexChar (b % 16) :: acc) [])

/-- UTF-8 encoding of one character's code point, as bytes
(mirrors `str.encode("utf-8")` per character). -/
def utf8EncodeCP (c : Char) : List Nat :=
  let n := c.toNat
  if n < 0x80 then [n]
  else if n < 0x800 then [0xc0 ||| (n >>> 6), 0x80 ||| (n &&& 0x3f)]
  else if n < 0x10000 then
    [0xe0 ||| (n >>> 12), 0x80 ||| ((n >>> 6) &&& 0x3f), 0x80 ||| (n &&& 0x3f)]
  else
    [0xf0 ||| (n >>> 18), 0x80 ||| ((n >>> 12) &&& 0x3f), 0x80 ||| ((n >>> 6) &&& 0x3f),
     0x80 ||| (n &&& 0x3f)]

def utf8Bytes (s : String) : List Nat :=
  s.data.foldr (fun c acc => utf8EncodeCP c ++ acc) []

/-- `hashlib.sha256(s.encode("utf-8")).hexdigest()`. -/
def sha256hex (s : String) : String :=
  bytesToHex (sha256bytes (utf8Bytes s))

/-! ## Python string primitives

Kernel-reducible models of the `str` methods the parser uses (`strip`,
`lower`, `split`, `replace`, `endswith`, slicing), defined by structural
recursion over the character list.  `strip`/`lower` follow Python's ASCII
behaviour (the inputs here are ASCII digits, punctuation and Latin text;
Georgian letters are case-less and never stripped). -/

def isPyWhitespace (c : Char) : Bool :=
  c = ' ' || c = '\t' || c = '\n' || c = '\r' || c = '\x0b' || c = '\x0c'

/-- `s.strip()`. -/
def pyStrip (s : String) : String :=
  String.mk (((s.data.dropWhile isPyWhitespace).reverse.dropWhile isPyWhitespace).reverse)

def pyCharLower (c : Char) : Char :=
  if 'A' ≤ c && c ≤ 'Z' then Char.ofNat (c.toNat + 32) else c

/-- `s.lower()`. -/
def pyLower (s : String) : String :=
  String.mk (s.data.map pyCharLower)

def splitOnChar (sep : Char) : List Char → List (List Char)
  | [] => [[]]
  | c :: rest =>
    match splitOnChar sep rest with
    | [] => if c = sep then [[], []] else [[c]]
    | h :: t => if c = sep then [] :: h :: t else (c :: h) :: t

/-- `s.split(sep)` for a one-character separator. -/
def pySplit (sep : Char) (s : String) : List String :=
  (splitOnChar sep s.data).map String.mk

/-- `s.replace(old, new)` for one-character arguments. -/
def pyReplaceChar (old new : Char) (s : String) : String :=
  String.mk (s.data.map (fun c => if c = old then new else c))

/-- `s[:n]`. -/
def strTakeChars (s : String) (n : Nat) : String :=
  String.mk (s.data.take n)

/-- `s.endswith(pat)`. -/
def strEndsWith (s pat : String) : Bool :=
  decide (s.data.reverse.take pat.data.length = pat.data.reverse)

/-- `int(...)` on a string already known to be all digits. -/
def digitsToNat (cs : List Char) : Nat :=
  cs.foldl (fun a c => a * 10 + (c.toNat - 48)) 0

/-! ## Python `Decimal` model

`decimal.Decimal` stores a sign, a tuple of coefficient digits and an
exponent; construction from a plain literal (optional sign, digits, optional
fractional part — the only shapes bank CSV amount cells take) records the
fractional length as a negative exponent and strips leading zeros of the
coefficient.  `toStr` is the to-scientific-string conversion used by
`str(Decimal)`. -/

structure PyDecimal where
  isNeg : Bool
  digits : List Nat
  exp : Int
deriving DecidableEq

def stripLeadingZeros : List Nat → List Nat
  | 0 :: rest => stripLeadingZeros rest
  | l => l

def pyDecimalCanon (neg : Bool) (ds : List Nat) (e : Int) : PyDecimal :=
  let ds' := stripLeadingZeros ds
  ⟨neg, if ds' = [] then [0] else ds', e⟩

def charDigit (c : Char) : Nat := c.toNat - 48

/-- Parse a plain decimal literal the way `Decimal(...)` does
(`[+-]? digits [. digits]` with at least one digit overall).  Exponent,
NaN and Infinity literals are outside the model and yield `none`. -/
def PyDecimal.ofLiteral (s : String) : Option PyDecimal :=
  let signBody : Bool × List Char :=
    match s.data with
    | '-' :: rest => (true, rest)
    | '+' :: rest => (false, rest)
    | cs => (false, cs)
  match splitOnChar '.' signBody.2 with
  | [ip] =>
    if ip ≠ [] ∧ ip.all Char.isDigit then
      some (pyDecimalCanon signBody.1 (ip.map charDigit) 0)
    else none
  | [ip, fp] =>
    if (ip ++ fp) ≠ [] ∧ ip.all Char.isDigit ∧ fp.all Char.isDigit then
      some (pyDecimalCanon signBody.1 ((ip ++ fp).map charDigit) (-(fp.length : Int)))
    else none
  | _ => none

def digitsStr (ds : List Nat) : String :=
  String.mk (ds.map (fun d => Char.ofNat (48 + d)))

/-- `str(Decimal)`: the to-scientific-string conversion of the decimal
arithmetic specification, as implemented by CPython. -/
def PyDecimal.toStr (d : PyDecimal) : String :=
  let n : Int := (d.digits.length : Int)
  let leftdigits : Int := d.exp + n
  let body :=
    if d.exp ≤ 0 ∧ leftdigits > -6 then
      if leftdigits ≤ 0 then
        "0." ++ String.mk (List.replicate (-leftdigits).toNat '0') ++ digitsStr d.digits
      else if leftdigits ≥ n then
        digitsStr d.digits ++ String.mk (List.replicate (leftdigits - n).toNat '0')
      else
        digitsStr (d.digits.take leftdigits.toNat) ++ "." ++
          digitsStr (d.digits.drop leftdigits.toNat)
    else
      let e := leftdigits - 1
      let mant :=
        match d.digits with
        | [] => "0"
        | [x] => digitsStr [x]
        | x :: rest => digitsStr [x] ++ "." ++ digitsStr rest
      mant ++ "E" ++ (if e < 0 then "-" else "+") ++ toString e.natAbs
  (if d.isNeg then "-" else "") ++ body

/-- Python truthiness of a `Decimal`: any zero value is falsy. -/
def PyDecimal.isZero (d : PyDecimal) : Bool := d.digits.all (· = 0)

/-- `d > 0` for a (finite) `Decimal`. -/
def PyDecimal.isPos (d : PyDecimal) : Bool := !d.isNeg && !d.isZero

def PyDecimal.zero : PyDecimal := ⟨false, [0], 0⟩

def PyDecimal.toRat (d : PyDecimal) : ℚ :=
  (if d.isNeg then -1 else 1) * (d.digits.foldl (fun a x => a * 10 + x) 0 : ℚ) * (10 : ℚ) ^ d.exp

/-- `x or y` on optional `Decimal`s followed by a truthiness test:
returns the first operand that is non-null and nonzero. -/
def pyTruthy (o : Option PyDecimal) : Option PyDecimal :=
  match o with
  | some d => if d.isZero then none else some d
  | none => none

/-! ## Python `date` model -/

structure PyDate where
  year : Nat
  month : Nat
  day : Nat
deriving DecidableEq

def isLeapYear (y : Nat) : Bool := (y % 4 = 0 && y % 100 ≠ 0) || (y % 400 = 0)

def daysInMonth (y m : Nat) : Nat :=
  if m = 2 then (if isLeapYear y then 29 else 28)
  else if m = 4 ∨ m = 6 ∨ m = 9 ∨ m = 11 then 30
  else 31

def pad2 (n : Nat) : String := if n < 10 then "0" ++ toString n else toString n

def pad4 (n : Nat) : String :=
  if n < 10 then "000" ++ toString n
  else if n < 100 then "00" ++ toString n
  else if n < 1000 then "0" ++ toString n
  else toString n

/-- `str(datetime.date)`: ISO `YYYY-MM-DD` with zero padding. -/
def PyDate.toStr (d : PyDate) : String :=
  pad4 d.year ++ "-" ++ pad2 d.month ++ "-" ++ pad2 d.day

/-! ## `csv_parser.py`: cell-level parsers -/

/-- `parse_date` (`csv_parser.py:51`): `strptime(s.strip(), "%d/%m/%Y")`,
`None` on blank input or parse failure.  `%d`/`%m` take 1–2 digits, `%Y`
exactly 4 digits, separated by literal `/`, with calendar validation. -/
def parse_date (date_str : String) : Option PyDate :=
  if pyStrip date_str = "" then none
  else
    match (splitOnChar '/' (pyStrip date_str).data) with
    | [ds, ms, ys] =>
      if ds ≠ [] ∧ ds.length ≤ 2 ∧ ds.all Char.isDigit ∧
         ms ≠ [] ∧ ms.length ≤ 2 ∧ ms.all Char.isDigit ∧
         ys.length = 4 ∧ ys.all Char.isDigit then
        let d := digitsToNat ds
        let m := digitsToNat ms
        let y := digitsToNat ys
        if 1 ≤ y ∧ 1 ≤ m ∧ m ≤ 12 ∧ 1 ≤ d ∧ d ≤ daysInMonth y m then
          some ⟨y, m, d⟩
        else none
      else none
    | _ => none

/-- `parse_decimal` (`csv_parser.py:62`): `None` on blank input, otherwise
`Decimal(value.strip().replace(',', '.'))` with `InvalidOperation ↦ None`. -/
def parse_decimal (value : String) : Option PyDecimal :=
  if pyStrip value = "" then none
  else PyDecimal.ofLiteral (pyReplaceChar ',' '.' (pyStrip value))

/-- `detect_currency_type` (`csv_parser.py:75`).  `if a and b:` is Python
truthiness (non-null and nonzero); the 0.01 tolerance comparison is taken
exactly over ℚ. -/
def detect_currency_type
    (paid_out paid_out_equiv paid_in paid_in_equiv : Option PyDecimal) : String :=
  match pyTruthy paid_out, pyTruthy paid_out_equiv with
  | some a, some b => if |a.toRat - b.toRat| < (1 : ℚ) / 100 then "GEL" else "USD"
  | _, _ =>
    match pyTruthy paid_in, pyTruthy paid_in_equiv with
    | some a, some b => if |a.toRat - b.toRat| < (1 : ℚ) / 100 then "GEL" else "USD"
    | _, _ => "GEL"

/-! ## `csv_parser.py`: record normalizer -/

/-- Canonical candidate record, field-for-field the `TransactionCreate`
schema of `app/schemas.py` as the parser fills it. -/
structure TransactionCreate where
  transaction_id : String
  source_account : String
  date : PyDate
  description : Option String
  additional_info : Option String
  amount_gel : PyDecimal
  amount_usd : Option PyDecimal
  is_expense : Bool
  is_internal_transfer : Bool
  balance_gel : Option PyDecimal
  transaction_type : Option String
  partner_name : Option String
  partner_account : Option String
  document_number : Option String
  category : Option String
  subcategory : Option String
  ai_categorized : Bool
deriving DecidableEq

/-- Maximal leading digit run of a character list, with the remainder. -/
def digitRun : List Char → List Char × List Char
  | [] => ([], [])
  | c :: cs =>
    if c.isDigit then
      let (r, rest) := digitRun cs
      (c :: r, rest)
    else ([], c :: cs)

/-- Try `account_statement_(\d+)_` anchored at the head of `cs`. -/
def matchStatementAt (cs : List Char) : Option String :=
  let pat := "account_statement_".data
  if cs.take pat.length = pat then
    let (ds, rest) := digitRun (cs.drop pat.length)
    if ds ≠ [] ∧ rest.headD ' ' = '_' then some (String.mk ds) else none
  else none

/-- `re.search(r'account_statement_(\d+)_', s)`: leftmost match. -/
def searchStatement : List Char → Option String
  | [] => none
  | c :: cs =>
    match matchStatementAt (c :: cs) with
    | some r => some r
    | none => searchStatement cs

/-- `re.search(r'(\d{8})', s)`: leftmost run of eight digits. -/
def searchEightDigits : List Char → Option String
  | [] => none
  | c :: cs =>
    if ((c :: cs).take 8).length = 8 ∧ ((c :: cs).take 8).all Char.isDigit then
      some (String.mk ((c :: cs).take 8))
    else searchEightDigits cs

/-- `extract_account_number` (`csv_parser.py:33`). -/
def extract_account_number (filename : String) : String :=
  match searchStatement filename.data with
  | some acct => acct
  | none =>
    match searchEightDigits filename.data with
    | some acct => acct
    | none => "unknown"

/-- `row[i].strip() if row[i] else None` — the per-cell optional-string
extraction the parser applies to text columns. -/
def pyStrOrNone (cell : String) : Option String :=
  if cell = "" then none else some (pyStrip cell)

/-- `row[i]` with the 0-based TBC column layout (`CSVColumns`). -/
def rowCell (row : List String) (i : Nat) : String := row.getD i ""

def rowDate (row : List String) : Option PyDate := parse_date (rowCell row 0)

def rowDescription (row : List String) : Option String := pyStrOrNone (rowCell row 1)

def rowAdditionalInfo (row : List String) : Option String := pyStrOrNone (rowCell row 2)

def rowPaidOut (row : List String) : Option PyDecimal := parse_decimal (rowCell row 3)

def rowPaidOutEquiv (row : List String) : Option PyDecimal := parse_decimal (rowCell row 4)

def rowPaidIn (row : List String) : Option PyDecimal := parse_decimal (rowCell row 5)

def rowPaidInEquiv (row : List String) : Option PyDecimal := parse_decimal (rowCell row 6)

def rowBalanceEquiv (row : List String) : Option PyDecimal := parse_decimal (rowCell row 8)

def rowType (row : List String) : Option String := pyStrOrNone (rowCell row 9)

def rowDocumentNumber (row : List String) : Option String := pyStrOrNone (rowCell row 11)

def rowPartnerAccount (row : List String) : Option String := pyStrOrNone (rowCell row 12)

def rowPartnerName (row : List String) : Option String := pyStrOrNone (rowCell row 13)

def rowTransactionId (row : List String) : Option String := pyStrOrNone (rowCell row 25)

/-- `str(paid_out_equiv or paid_in_equiv or "0")` — Python `or` keeps the
first truthy operand, so a non-null but zero `Decimal` is skipped. -/
def fallbackAmountStr (paid_out_equiv paid_in_equiv : Option PyDecimal) : String :=
  match pyTruthy paid_out_equiv with
  | some d => d.toStr
  | none =>
    match pyTruthy paid_in_equiv with
    | some d => d.toStr
    | none => "0"

/-- The fallback external-id generation of `parse_csv_content`
(`csv_parser.py:152-168`): join the normalized parts with `|`, SHA-256,
first 16 hex digits, `gen_` tag. -/
def generate_fallback_id (date_val : PyDate) (description additional_info : Option String)
    (paid_out_equiv paid_in_equiv : Option PyDecimal) (source_account : String)
    (document_number partner_account : Option String) : String :=
  let fallback_parts : List String :=
    [date_val.toStr,
     pyLower (pyStrip (description.getD "")),
     pyLower (pyStrip (additional_info.getD "")),
     fallbackAmountStr paid_out_equiv paid_in_equiv,
     source_account,
     pyStrip (document_number.getD ""),
     pyStrip (partner_account.getD "")]
  let hash_input := String.intercalate "|" fallback_parts
  "gen_" ++ strTakeChars (sha256hex hash_input) 16

/-- One iteration of the data-row loop of `parse_csv_content`
(`csv_parser.py:123-203`): `none` exactly when the row is skipped
(blank row, fewer than 26 columns, or unparseable date). -/
def parse_row (source_account : String) (row : List String) : Option TransactionCreate :=
  if row.isEmpty || row.all (fun cell => pyStrip cell = "") then none
  else if row.length < 26 then none
  else
    match rowDate row with
    | none => none
    | some date_val =>
      let description := rowDescription row
      let additional_info := rowAdditionalInfo row
      let paid_out := rowPaidOut row
      let paid_out_equiv := rowPaidOutEquiv row
      let paid_in := rowPaidIn row
      let paid_in_equiv := rowPaidInEquiv row
      let transaction_id :=
        if (rowTransactionId row).getD "" = "" then
          generate_fallback_id date_val description additional_info
            paid_out_equiv paid_in_equiv source_account
            (rowDocumentNumber row) (rowPartnerAccount row)
        else (rowTransactionId row).getD ""
      let is_expense :=
        match paid_out with
        | some d => d.isPos
        | none => false
      let amount_gel :=
        if is_expense then
          match pyTruthy paid_out_equiv with
          | some d => d
          | none =>
            match pyTruthy paid_out with
            | some d => d
            | none => PyDecimal.zero
        else
          match pyTruthy paid_in_equiv with
          | some d => d
          | none =>
            match pyTruthy paid_in with
            | some d => d
            | none => PyDecimal.zero
      let currency_type := detect_currency_type paid_out paid_out_equiv paid_in paid_in_equiv
      let amount_usd :=
        if currency_type = "USD" then (if is_expense then paid_out else paid_in) else none
      some
        { transaction_id := transaction_id
          source_account := source_account
          date := date_val
          description := description
          additional_info := additional_info
          amount_gel := amount_gel
          amount_usd := amount_usd
          is_expense := is_expense
          is_internal_transfer := false
          balance_gel := rowBalanceEquiv row
          transaction_type := rowType row
          partner_name := rowPartnerName row
          partner_account := rowPartnerAccount row
          document_number := rowDocumentNumber row
          category := none
          subcategory := none
          ai_categorized := false }

/-- `parse_csv_content` (`csv_parser.py:95-205`) from the point where the
byte content has been decoded into CSV rows: resolve the account from the
filename, require at least three rows, skip the two header rows, and run the
data-row loop.  `Except.error` is the `ValueError` the function raises. -/
def parse_csv_content (rows : List (List String)) (filename : String) :
    Except String (List TransactionCreate × String) :=
  let source_account := extract_account_number filename
  if rows.length < 3 then
    .error "CSV file too short. Expected at least 3 rows (headers + data)."
  else
    .ok ((rows.drop 2).filterMap (parse_row source_account), source_account)

/-! ## `csv_parser.py`: dedup filter, transfer detector, persistence -/

/-- `get_existing_transaction_ids` (`csv_parser.py:208`): the set of
external ids already stored for one account. -/
def get_existing_transaction_ids (ledger : List TransactionCreate)
    (source_account : String) : Finset String :=
  ((ledger.filter (fun r => r.source_account = source_account)).map
    (fun r => r.transaction_id)).toFinset

/-- `filter_duplicates` (`csv_parser.py:217-237`).  The Python loop mutates
the caller's `existing_ids` set; here the set is threaded explicitly. -/
def filter_duplicates (transactions : List TransactionCreate)
    (existing_ids : Finset String) : List TransactionCreate × Nat :=
  match transactions with
  | [] => ([], 0)
  | txn :: rest =>
    if txn.transaction_id ∈ existing_ids then
      ((filter_duplicates rest existing_ids).1, (filter_duplicates rest existing_ids).2 + 1)
    else
      (txn :: (filter_duplicates rest (insert txn.transaction_id existing_ids)).1,
       (filter_duplicates rest (insert txn.transaction_id existing_ids)).2)

/-- Spec-side characterization of the Dedup Filter, following the claim's
words: a record is kept exactly when its external id is neither in the known
set nor equal to the id of an earlier record of the list.  `earlier`
accumulates the ids of all records already visited. -/
def dedupSpecKeep (known : Finset String) :
    List TransactionCreate → List String → List TransactionCreate
  | [], _ => []
  | txn :: rest, earlier =>
    if txn.transaction_id ∈ known ∨ txn.transaction_id ∈ earlier then
      dedupSpecKeep known rest (earlier ++ [txn.transaction_id])
    else
      txn :: dedupSpecKeep known rest (earlier ++ [txn.transaction_id])

/-- Number of distinct source accounts under which an external id occurs. -/
def distinctAccountsOf (ledger : List TransactionCreate) (tid : String) : Nat :=
  (((ledger.filter (fun r => r.transaction_id = tid)).map
    (fun r => r.source_account)).dedup).length

/-- `detect_internal_transfers` (`csv_parser.py:240-270`): the grouped
`HAVING count(distinct source_account) > 1` subquery followed by the bulk
`UPDATE ... SET is_internal_transfer = true`; returns the updated ledger and
the update's row count. -/
def detect_internal_transfers (ledger : List TransactionCreate) :
    List TransactionCreate × Nat :=
  let multi := fun tid => decide (2 ≤ distinctAccountsOf ledger tid)
  (ledger.map (fun r =>
     if multi r.transaction_id then { r with is_internal_transfer := true } else r),
   (ledger.filter (fun r => multi r.transaction_id)).length)

def txnKey (r : TransactionCreate) : String × String := (r.transaction_id, r.source_account)

/-- The `uix_transaction_source` unique constraint of `app/models.py`: a bulk
insert violates it when a new row collides with a stored row or with another
new row on `(transaction_id, source_account)`. -/
def insertViolatesUnique (ledger txns : List TransactionCreate) : Prop :=
  (∃ r ∈ txns, ∃ s ∈ ledger, txnKey r = txnKey s) ∨ ¬ (txns.map txnKey).Nodup

instance (ledger txns : List TransactionCreate) :
    Decidable (insertViolatesUnique ledger txns) := by
  unfold insertViolatesUnique; infer_instance

/-- `save_transactions` (`csv_parser.py:273-305`): `bulk_save_objects` +
`commit`, with no exception handling — a store constraint violation
(`Except.error`) propagates to the caller.  On success the rows are appended
and their count returned. -/
def save_transactions (ledger : List TransactionCreate)
    (transactions : List TransactionCreate) :
    Except String (List TransactionCreate × Nat) :=
  if transactions.isEmpty then .ok (ledger, 0)
  else if insertViolatesUnique ledger transactions then
    .error "UNIQUE constraint failed: transactions.transaction_id, transactions.source_account"
  else .ok (ledger ++ transactions, transactions.length)

/-! ## `upload.py`: upload entry point -/

structure UploadResponse where
  message : String
  new_transactions : Nat
  duplicates_skipped : Nat
  total_in_file : Nat
  source_account : String
deriving DecidableEq

/-- `upload_csv` (`upload.py:17-78`).  Errors are `(HTTP status, detail)`
pairs: the explicit `HTTPException`s of the handler, plus status 500 for an
exception that escapes it (the unhandled store error from
`save_transactions`).  `dbAtQuery` is the store state observed by the
duplicate query, `dbAtInsert` the state at insert time: they coincide unless
a concurrent upload commits in between.  The `await file.read()` step and
the 10 MB size check act on raw bytes and are not modelled; `rows` is the
decoded CSV content. -/
def upload_csv (filename : Option String) (rows : List (List String))
    (dbAtQuery dbAtInsert : List TransactionCreate) :
    Except (Nat × String) (UploadResponse × List TransactionCreate) :=
  if (filename.getD "") = "" then .error (400, "No filename provided")
  else if !(strEndsWith (filename.getD "") ".csv") then .error (400, "File must be a CSV file")
  else
    match parse_csv_content rows (filename.getD "") with
    | .error e => .error (400, e)
    | .ok (transactions, source_account) =>
      if transactions.isEmpty then .error (400, "No valid transactions found in CSV")
      else
        let existing_ids := get_existing_transaction_ids dbAtQuery source_account
        let filtered := filter_duplicates transactions existing_ids
        match save_transactions dbAtInsert filtered.1 with
        | .error e => .error (500, e)
        | .ok (db2, saved_count) =>
          let db3 := if 0 < saved_count then (detect_internal_transfers db2).1 else db2
          .ok ({ message := "Successfully processed " ++ filename.getD ""
                 new_transactions := saved_count
                 duplicates_skipped := filtered.2
                 total_in_file := transactions.length
                 source_account := source_account }, db3)

/-! ## `categorize.py`: background classification task runner

The runner's external collaborators are inputs: `classify` models
`prepare → categorize_with_gemini` as one fallible call per batch (the code's
inner `try` block), and `qfail` models the availability of the store for the
per-batch `db.query` that sits *outside* that inner `try` — a `some e` there
is an exception escaping the batch loop into the outer handler.  Timestamps
are abstract `Nat` clock readings supplied as parameters. -/

inductive TaskStatus where
  | pending
  | running
  | completed
  | cancelled
  | failed
deriving DecidableEq

/-- `TaskStatus.value` — the wire strings of the `str, Enum` class. -/
def TaskStatus.value : TaskStatus → String
  | .pending => "pending"
  | .running => "running"
  | .completed => "completed"
  | .cancelled => "cancelled"
  | .failed => "failed"

/-- `TaskState` (`categorize.py:38-48`). -/
structure TaskState where
  status : TaskStatus
  total : Nat
  processed : Nat
  categorized : Nat
  errors : List String
  cancel_requested : Bool
  started_at : Option Nat
  completed_at : Option Nat
deriving DecidableEq

/-- `TaskState.__init__(total)`. -/
def TaskState.init (total : Nat) : TaskState :=
  ⟨.pending, total, 0, 0, [], false, none, none⟩

/-- The rows of the `transactions` table as the categorization runner sees
them (`app/models.py`; fields the runner never reads are omitted). -/
structure Transaction where
  id : Nat
  description : Option String
  partner_name : Option String
  transaction_type : Option String
  is_expense : Bool
  amount_gel : Option PyDecimal
  category : Option String
  subcategory : Option String
  ai_categorized : Bool
deriving DecidableEq

/-- `TransactionForAI` (`categories.py:437-445`).  `amount` carries the
decimal value; Python's lossy `float(...)` conversion is not modelled (the
value is opaque to every claim). -/
structure TransactionForAI where
  id : Nat
  description : String
  partner_name : String
  transaction_type : String
  is_expense : Bool
  amount : PyDecimal
deriving DecidableEq

/-- `float(t.amount_gel) if t.amount_gel else 0.0` — truthiness again:
`None` and zero both give 0. -/
def pyAmountValue (o : Option PyDecimal) : PyDecimal :=
  match pyTruthy o with
  | some d => d
  | none => PyDecimal.zero

/-- `prepare_transactions_for_ai` (`categories.py:568-581`). -/
def prepare_transactions_for_ai (transactions : List Transaction) : List TransactionForAI :=
  transactions.map (fun t =>
    ⟨t.id, t.description.getD "", t.partner_name.getD "", t.transaction_type.getD "",
     t.is_expense, pyAmountValue t.amount_gel⟩)

/-- One entry of the `validated_results` list returned by
`categorize_with_gemini`. -/
structure AiResult where
  id : Nat
  category : String
  subcategory : String
deriving DecidableEq

/-- `result_map = {r["id"]: r for r in results}` followed by lookup: a dict
comprehension keeps the last entry for a repeated id. -/
def result_map_find (results : List AiResult) (i : Nat) : Option AiResult :=
  results.reverse.find? (fun r => decide (r.id = i))

def BATCH_SIZE : Nat := 50

/-- `transaction_ids[batch_num*BATCH_SIZE : min(batch_num*BATCH_SIZE + BATCH_SIZE, len)]`. -/
def batch_slice (transaction_ids : List Nat) (batch_num : Nat) : List Nat :=
  (transaction_ids.drop (batch_num * BATCH_SIZE)).take BATCH_SIZE

/-- `f"Batch {batch_num + 1} failed: {str(e)}"`. -/
def batchErrMsg (batch_num : Nat) (e : String) : String :=
  "Batch " ++ toString (batch_num + 1) ++ " failed: " ++ e

/-- `db.query(Transaction).filter(Transaction.id.in_(batch_ids)).all()`. -/
def queryBatch (db : List Transaction) (batch_ids : List Nat) : List Transaction :=
  db.filter (fun r => decide (r.id ∈ batch_ids))

/-- The per-row assignment `txn.category = ...; txn.subcategory = ...;
txn.ai_categorized = True`. -/
def update_transaction (res : AiResult) (t : Transaction) : Transaction :=
  { t with category := some res.category, subcategory := some res.subcategory,
           ai_categorized := true }

/-- The update loop over the batch's rows, as committed to the store. -/
def apply_batch_results (results : List AiResult) (batch_ids : List Nat)
    (db : List Transaction) : List Transaction :=
  db.map (fun t =>
    if decide (t.id ∈ batch_ids) then
      match result_map_find results t.id with
      | some res => update_transaction res t
      | none => t
    else t)

/-- How many rows of the batch received an assignment (`task.categorized`
is incremented once per such row). -/
def countAssigned (results : List AiResult) (found : List Transaction) : Nat :=
  (found.filter (fun t => (result_map_find results t.id).isSome)).length

/-- Mutable state the runner owns: the task object and its store session. -/
structure RunState where
  task : TaskState
  db : List Transaction
deriving DecidableEq

/-- The `for batch_num in range(total_batches)` loop of
`run_categorization_sync` (`categorize.py:124-173`), processed batch by
batch; the `Option String` result is an exception escaping the loop (store
failure on the batch query, which sits outside the inner `try`). -/
def run_batches (classify : List TransactionForAI → Except String (List AiResult))
    (qfail : Nat → Option String) (transaction_ids : List Nat) :
    Nat → Nat → RunState → RunState × Option String
  | 0, _, s => (s, none)
  | fuel + 1, batch_num, s =>
    if s.task.cancel_requested then
      ({ s with task := { s.task with status := .cancelled } }, none)
    else
      match qfail batch_num with
      | some e => (s, some e)
      | none =>
        let batch_ids := batch_slice transaction_ids batch_num
        let found := queryBatch s.db batch_ids
        if found.isEmpty then
          run_batches classify qfail transaction_ids fuel (batch_num + 1) s
        else
          match classify (prepare_transactions_for_ai found) with
          | .ok results =>
            run_batches classify qfail transaction_ids fuel (batch_num + 1)
              { task := { s.task with
                  categorized := s.task.categorized + countAssigned results found,
                  processed := s.task.processed + found.length },
                db := apply_batch_results results batch_ids s.db }
          | .error e =>
            run_batches classify qfail transaction_ids fuel (batch_num + 1)
              { s with task := { s.task with
                  errors := s.task.errors ++ [batchErrMsg batch_num e],
                  processed := s.task.processed + found.length } }

/-- `total_batches = (len(transaction_ids) + BATCH_SIZE - 1) // BATCH_SIZE`. -/
def total_batches (transaction_ids : List Nat) : Nat :=
  (transaction_ids.length + BATCH_SIZE - 1) / BATCH_SIZE

/-- `task.status = RUNNING; task.started_at = time.time()` — the runner's
first two statements (`categorize.py:114-115`). -/
def start_running (s : RunState) (t0 : Nat) : RunState :=
  { s with task := { s.task with status := TaskStatus.running, started_at := some t0 } }

/-- The normal epilogue after the batch loop (`categorize.py:175-179`):
promote a still-running task to completed, then stamp `completed_at`. -/
def finish_run (s2 : RunState) (t1 : Nat) : RunState :=
  if s2.task.status = TaskStatus.running then
    { s2 with task := { s2.task with status := TaskStatus.completed, completed_at := some t1 } }
  else
    { s2 with task := { s2.task with completed_at := some t1 } }

/-- The outer `except` handler (`categorize.py:182-185`): status failed and
the error appended — `completed_at` is *not* stamped on this path. -/
def fail_run (s2 : RunState) (e : String) : RunState :=
  { s2 with task := { s2.task with status := TaskStatus.failed, errors := s2.task.errors ++ [e] } }

/-- `run_categorization_sync` (`categorize.py:105-187`) for a present task:
mark running, run the batch loop, then either the normal epilogue or the
outer `except` handler, depending on whether an exception escaped the
loop. -/
def run_categorization_sync
    (classify : List TransactionForAI → Except String (List AiResult))
    (qfail : Nat → Option String) (transaction_ids : List Nat)
    (t0 t1 : Nat) (s : RunState) : RunState :=
  match (run_batches classify qfail transaction_ids (total_batches transaction_ids) 0
      (start_running s t0)).2 with
  | none =>
    finish_run (run_batches classify qfail transaction_ids (total_batches transaction_ids) 0
      (start_running s t0)).1 t1
  | some e =>
    fail_run (run_batches classify qfail transaction_ids (total_batches transaction_ids) 0
      (start_running s t0)).1 e

/-! ## `categorize.py`: task registry (`_current_task`) -/

/-- The response dict of the `/start` endpoint (fields the claims touch). -/
structure StartResponse where
  task_id : Option String
  status : String
  message : String
  total : Nat
  processed : Nat
  categorized : Nat
deriving DecidableEq

/-- `for tid, task in _current_task.items(): if task.status == RUNNING` —
first running task in registry order. -/
def find_running (reg : List (String × TaskState)) : Option (String × TaskState) :=
  reg.find? (fun p => decide (p.2.status = .running))

/-- `start_categorization` (`categorize.py:190-248`) as an atomic registry
transition.  `fresh_task_id` models `str(uuid.uuid4())[:8]` (assumed not
already a key, so the dict insertion appends).  Spawning the worker thread
is the separate `begin_run` event below: the new task is only `pending`
when the endpoint returns. -/
def start_categorization (reg : List (String × TaskState)) (db : List Transaction)
    (fresh_task_id : String) : List (String × TaskState) × StartResponse :=
  match find_running reg with
  | some (tid, task) =>
    (reg, ⟨some tid, task.status.value, "A categorization task is already running",
           task.total, task.processed, task.categorized⟩)
  | none =>
    let transactions := db.filter (fun t => t.category.isNone)
    if transactions.isEmpty then
      (reg, ⟨none, "completed", "No transactions to categorize", 0, 0, 0⟩)
    else
      (reg ++ [(fresh_task_id, TaskState.init transactions.length)],
       ⟨some fresh_task_id, "pending",
        "Started categorizing " ++ toString transactions.length ++ " transactions",
        transactions.length, 0, 0⟩)

/-- The first two statements `task.status = RUNNING; task.started_at = ...`
of `run_categorization_sync` executed by the spawned thread (with the
`if not task: return` guard: an absent id leaves the registry unchanged). -/
def begin_run (reg : List (String × TaskState)) (task_id : String) (t0 : Nat) :
    List (String × TaskState) :=
  reg.map (fun p =>
    if p.1 = task_id then
      (p.1, { p.2 with status := TaskStatus.running, started_at := some t0 })
    else p)

def count_running (reg : List (String × TaskState)) : Nat :=
  (reg.filter (fun p => decide (p.2.status = .running))).length

/-- The activity test of the `/active` endpoint (`categorize.py:303-327`):
`task.status in [PENDING, RUNNING]`. -/
def isActiveTask (t : TaskState) : Bool :=
  decide (t.status = .pending) || decide (t.status = .running)

/-! ## Concrete scenarios used by the claims' counterexamples and witnesses -/

/-- Fixed ledger row used by concrete scenarios. -/
def mkTxn (tid acct : String) : TransactionCreate :=
  { transaction_id := tid, source_account := acct, date := ⟨2025, 1, 1⟩,
    description := none, additional_info := none, amount_gel := PyDecimal.zero,
    amount_usd := none, is_expense := false, is_internal_transfer := false,
    balance_gel := none, transaction_type := none, partner_name := none,
    partner_account := none, document_number := none, category := none,
    subcategory := none, ai_categorized := false }

def C3ledger : List TransactionCreate := [mkTxn "T" "A", mkTxn "T" "B", mkTxn "U" "A"]

/-- The first non-null of two optional values (the claim's "first non-null
equivalent amount"). -/
def firstNonNull (x y : Option PyDecimal) : Option PyDecimal :=
  match x with
  | some d => some d
  | none => y

/-- The first non-null *and nonzero* of two optional `Decimal`s — the value
Python's `x or y` truthiness chain actually selects. -/
def firstTruthyAmount (x y : Option PyDecimal) : Option PyDecimal :=
  match pyTruthy x with
  | some d => some d
  | none => pyTruthy y

/-- The tuple that claim C2 says the generated fallback id is a function of:
date, normalized description, normalized note, *first non-null* equivalent
amount, account, document number, counterparty account.  (Spec-side
definition, for comparison with the code's hashing inputs.) -/
def claim_fallback_basis (source_account : String) (row : List String) :
    Option PyDate × String × String × Option PyDecimal × String × String × String :=
  (rowDate row,
   pyLower (pyStrip ((rowDescription row).getD "")),
   pyLower (pyStrip ((rowAdditionalInfo row).getD "")),
   firstNonNull (rowPaidOutEquiv row) (rowPaidInEquiv row),
   source_account,
   pyStrip ((rowDocumentNumber row).getD ""),
   pyStrip ((rowPartnerAccount row).getD ""))

/-- Two data rows (26 columns) that differ only in the equivalent-inflow
cell while both carry a non-null but *zero* equivalent-outflow cell and no
source transaction id. -/
def C2row (amt : String) : List String :=
  ["14/10/2025", "Shop", "", "", "0", "", amt, "", "", "", "", "", "",
   "", "", "", "", "", "", "", "", "", "", "", "", ""]

def C2wrow1 : List String :=
  ["14/10/2025", " Coffee Shop ", "NOTE", "", "12.50", "", "", "", "", "", "", "D1", "ACC9",
   "", "", "", "", "", "", "", "", "", "", "", "", ""]

def C2wrow2 : List String :=
  ["14/10/2025", "coffee shop", " note ", "", "12.50", "", "", "", "", "", "", "D1", "ACC9",
   "", "", "", "", "", "", "", "", "", "", "", "", ""]

def C4db : List Transaction :=
  [⟨1, some "groceries", none, none, true, none, none, none, false⟩,
   ⟨2, some "rent", none, none, true, none, none, none, false⟩]

/-- A classification stub that always fails. -/
def C4classify : List TransactionForAI → Except String (List AiResult) :=
  fun _ => .error "service unavailable"

def C6db : List Transaction :=
  [⟨10, some "salary", none, none, false, none, none, none, false⟩]

def C6classify : List TransactionForAI → Except String (List AiResult) :=
  fun ts => .ok (ts.map (fun t => ⟨t.id, "Other", "Uncategorized"⟩))

def C7classify : List TransactionForAI → Except String (List AiResult) :=
  fun _ => .ok []

def C7qfail : Nat → Option String :=
  fun _ => some "database connection lost"

def C5db : List Transaction :=
  [⟨1, some "food", none, none, true, none, none, none, false⟩]

def C5reg1 : List (String × TaskState) := (start_categorization [] C5db "aaaa1111").1

def C5reg2 : List (String × TaskState) := (start_categorization C5reg1 C5db "bbbb2222").1

def C5reg4 : List (String × TaskState) :=
  begin_run (begin_run C5reg2 "aaaa1111" 5) "bbbb2222" 6

def C5wtask : TaskState :=
  { TaskState.init 7 with status := TaskStatus.running, processed := 3 }

def C5wreg : List (String × TaskState) := [("cccc0000", C5wtask)]

def C8row : List String :=
  ["14/10/2025", "Payment", "", "10.00", "10.00", "", "", "", "", "", "", "", "",
   "", "", "", "", "", "", "", "", "", "", "", "", "T1"]

def C8rows : List (List String) := [[], [], C8row]

def C8ledger : List TransactionCreate := [mkTxn "T1" "14274656"]

def C9rows : List (List String) := [[], [], ["x"]]

/-- Sanity check of the hash implementation against the FIPS 180 test vector. -/
theorem sha256hex_fips_vector :
    sha256hex "abc" = "ba7816bf8f01cfea414140de5dae2223b00361a396177a9cb410ff61f20015ad" := by
  decide

/-! ## Claims: Dedup Filter (C1) -/

/-- The set threaded by `filter_duplicates` always equals the initial known
set plus the ids of all records already visited, so the accepted sublist is
the one the specification describes. -/
theorem filter_duplicates_eq_dedupSpecKeep
    (txns : List TransactionCreate) (S known : Finset String) (earlier : List String)
    (hS : ∀ x, x ∈ S ↔ x ∈ known ∨ x ∈ earlier) :
    (filter_duplicates txns S).1 = dedupSpecKeep known txns earlier := by
  induction txns generalizing S earlier with
  | nil => simp [filter_duplicates, dedupSpecKeep]
  | cons t rest ih =>
    simp only [filter_duplicates, dedupSpecKeep]
    by_cases hmem : t.transaction_id ∈ S
    · rw [if_pos hmem, if_pos ((hS _).mp hmem)]
      refine ih S (earlier ++ [t.transaction_id]) (fun x => ?_)
      constructor
      · intro hx
        rcases (hS x).mp hx with h1 | h2
        · exact Or.inl h1
        · exact Or.inr (List.mem_append_left _ h2)
      · intro hx
        rcases hx with h1 | h2
        · exact (hS x).mpr (Or.inl h1)
        · rcases List.mem_append.mp h2 with h3 | h4
          · exact (hS x).mpr (Or.inr h3)
          · rw [List.mem_singleton.mp h4]
            exact hmem
    · rw [if_neg hmem, if_neg (fun hk => hmem ((hS _).mpr hk))]
      simp only [List.cons.injEq, true_and]
      refine ih (insert t.transaction_id S) (earlier ++ [t.transaction_id]) (fun x => ?_)
      constructor
      · intro hx
        rcases Finset.mem_insert.mp hx with h1 | h2
        · exact Or.inr (List.mem_append_right _ (List.mem_singleton.mpr h1))
        · rcases (hS x).mp h2 with h3 | h4
          · exact Or.inl h3
          · exact Or.inr (List.mem_append_left _ h4)
      · intro hx
        rcases hx with h1 | h2
        · exact Finset.mem_insert.mpr (Or.inr ((hS x).mpr (Or.inl h1)))
        · rcases List.mem_append.mp h2 with h3 | h4
          · exact Finset.mem_insert.mpr (Or.inr ((hS x).mpr (Or.inr h3)))
          · exact Finset.mem_insert.mpr (Or.inl (List.mem_singleton.mp h4))

/-- Accepted records plus counted duplicates always account for the whole
input list. -/
theorem filter_duplicates_length (txns : List TransactionCreate) (S : Finset String) :
    (filter_duplicates txns S).1.length + (filter_duplicates txns S).2 = txns.length := by
  induction txns generalizing S with
  | nil => simp [filter_duplicates]
  | cons t rest ih =>
    simp only [filter_duplicates]
    by_cases hmem : t.transaction_id ∈ S
    · rw [if_pos hmem]
      simp only [List.length_cons]
      have := ih S
      omega
    · rw [if_neg hmem]
      simp only [List.length_cons]
      have := ih (insert t.transaction_id S)
      omega

/-- C1: for every candidate list and initial known-id set, the Dedup Filter
returns exactly the in-order sublist of records whose external id is neither
in the known set nor equal to an earlier record's id (so of several records
sharing one id, only the first is kept), and the duplicate count equals the
number of records excluded. -/
theorem filter_duplicates_spec (txns : List TransactionCreate) (existing_ids : Finset String) :
    (filter_duplicates txns existing_ids).1 = dedupSpecKeep existing_ids txns [] ∧
    (filter_duplicates txns existing_ids).1.length + (filter_duplicates txns existing_ids).2
      = txns.length :=
  ⟨filter_duplicates_eq_dedupSpecKeep txns existing_ids existing_ids []
     (fun x => by simp),
   filter_duplicates_length txns existing_ids⟩

/-! ## Claims: Transfer Detector (C3) -/

/-- In a zip of a list with its image under `f`, each pair's second
component is `f` of the first. -/
theorem zip_map_snd {α β : Type} (l : List α) (f : α → β) :
    ∀ p ∈ l.zip (l.map f), p.2 = f p.1 := by
  induction l with
  | nil => intro p hp; simp at hp
  | cons a l ih =>
    intro p hp
    simp only [List.map_cons, List.zip_cons_cons, List.mem_cons] at hp
    rcases hp with h | h
    · rw [h]
    · exact ih p h

/-- A row update that does not touch `transaction_id` or `source_account`
leaves the per-id distinct-account count unchanged. -/
theorem distinctAccountsOf_map (ledger : List TransactionCreate)
    (g : TransactionCreate → TransactionCreate)
    (hid : ∀ r, (g r).transaction_id = r.transaction_id)
    (hacc : ∀ r, (g r).source_account = r.source_account) (tid : String) :
    distinctAccountsOf (ledger.map g) tid = distinctAccountsOf ledger tid := by
  unfold distinctAccountsOf
  have hl : ∀ l : List TransactionCreate,
      ((l.map g).filter (fun r => decide (r.transaction_id = tid))).map
          (fun r => r.source_account)
        = (l.filter (fun r => decide (r.transaction_id = tid))).map
            (fun r => r.source_account) := by
    intro l
    induction l with
    | nil => rfl
    | cons a l ihl =>
      simp only [List.map_cons, List.filter_cons, hid a]
      by_cases h : a.transaction_id = tid
      · simp [h, hacc a, ihl]
      · simp [h, ihl]
  rw [hl ledger]

/-- C3: after the Transfer Detector runs, every record whose external id
occurs under two or more distinct accounts carries `is_internal_transfer =
true`, every record whose id occurs under only one account is unchanged, and
re-running the detector on the updated ledger changes nothing. -/
theorem detect_internal_transfers_spec (ledger : List TransactionCreate) :
    ((detect_internal_transfers ledger).1.length = ledger.length) ∧
    (∀ p ∈ ledger.zip (detect_internal_transfers ledger).1,
        (2 ≤ distinctAccountsOf ledger p.1.transaction_id →
           p.2 = { p.1 with is_internal_transfer := true }) ∧
        (distinctAccountsOf ledger p.1.transaction_id < 2 → p.2 = p.1)) ∧
    ((detect_internal_transfers (detect_internal_transfers ledger).1).1
       = (detect_internal_transfers ledger).1) := by
  refine ⟨by simp [detect_internal_transfers], ?_, ?_⟩
  · intro p hp
    have h2 := zip_map_snd ledger _ p hp
    constructor
    · intro hmulti
      rw [h2]
      simp only [decide_eq_true_eq]
      rw [if_pos hmulti]
    · intro hsingle
      rw [h2]
      simp only [decide_eq_true_eq]
      rw [if_neg (by omega)]
  · unfold detect_internal_transfers
    simp only [List.map_map]
    have hpres : ∀ tid,
        distinctAccountsOf
            (ledger.map (fun r =>
              if decide (2 ≤ distinctAccountsOf ledger r.transaction_id) then
                { r with is_internal_transfer := true }
              else r)) tid
          = distinctAccountsOf ledger tid := by
      intro tid
      refine distinctAccountsOf_map ledger _ (fun r => ?_) (fun r => ?_) tid
      · by_cases h : 2 ≤ distinctAccountsOf ledger r.transaction_id <;> simp [h]
      · by_cases h : 2 ≤ distinctAccountsOf ledger r.transaction_id <;> simp [h]
    refine List.map_congr_left (fun r hr => ?_)
    simp only [Function.comp, hpres]
    by_cases h : 2 ≤ distinctAccountsOf ledger r.transaction_id
    · simp [h]
    · simp [h]

/-- Witness for C3: in a ledger where id `T` occurs under accounts `A` and
`B` and id `U` under `A` only, the detector marks the `T` rows. -/
theorem detect_internal_transfers_spec_witness :
    ((mkTxn "T" "A", { mkTxn "T" "A" with is_internal_transfer := true })
        ∈ C3ledger.zip (detect_internal_transfers C3ledger).1) ∧
    ({ mkTxn "T" "A" with is_internal_transfer := true }
        = { mkTxn "T" "A" with is_internal_transfer := true }) ∧
    ((detect_internal_transfers (detect_internal_transfers C3ledger).1).1
       = (detect_internal_transfers C3ledger).1) :=
  ⟨by decide,
   ((detect_internal_transfers_spec C3ledger).2.1
      (mkTxn "T" "A", { mkTxn "T" "A" with is_internal_transfer := true })
      (by decide)).1 (by decide),
   (detect_internal_transfers_spec C3ledger).2.2⟩

/-! ## Claims: fallback external id (C2) -/

/-- The amount component the code hashes is determined by the first
non-null and nonzero equivalent amount. -/
theorem fallbackAmountStr_eq_firstTruthy (x y : Option PyDecimal) :
    fallbackAmountStr x y
      = (match firstTruthyAmount x y with
         | some d => d.toStr
         | none => "0") := by
  unfold fallbackAmountStr firstTruthyAmount
  cases pyTruthy x <;> rfl

theorem fallbackAmountStr_congr (x1 y1 x2 y2 : Option PyDecimal)
    (h : firstTruthyAmount x1 y1 = firstTruthyAmount x2 y2) :
    fallbackAmountStr x1 y1 = fallbackAmountStr x2 y2 := by
  rw [fallbackAmountStr_eq_firstTruthy, fallbackAmountStr_eq_firstTruthy, h]

/-- On the success path, a row that supplies no source external id gets the
generated fallback id. -/
theorem parse_row_generated_id (acct : String) (row : List String)
    (hs : (parse_row acct row).isSome = true)
    (hgen : (rowTransactionId row).getD "" = "") :
    (parse_row acct row).map (fun t => t.transaction_id)
      = (rowDate row).map (fun d =>
          generate_fallback_id d (rowDescription row) (rowAdditionalInfo row)
            (rowPaidOutEquiv row) (rowPaidInEquiv row) acct
            (rowDocumentNumber row) (rowPartnerAccount row)) := by
  unfold parse_row at hs ⊢
  by_cases h1 : (row.isEmpty || row.all (fun cell => pyStrip cell = "")) = true
  · rw [if_pos h1] at hs
    simp at hs
  · rw [if_neg h1] at hs ⊢
    by_cases h2 : row.length < 26
    · rw [if_pos h2] at hs
      simp at hs
    · rw [if_neg h2] at hs ⊢
      cases hd : rowDate row with
      | none =>
        rw [hd] at hs
        simp at hs
      | some d => simp [hgen]

/-- C2 (counterexample): both rows have the same claimed basis tuple — in
particular the same *first non-null* equivalent amount, the zero outflow
equivalent — and neither supplies a source external id, yet the Normalizer
generates different fallback ids, because Python's `or` chain skips the
zero `Decimal` and hashes the differing inflow equivalents instead. -/
theorem parse_row_fallback_id_not_basis_function :
    claim_fallback_basis "14274656" (C2row "5") = claim_fallback_basis "14274656" (C2row "7") ∧
    (rowTransactionId (C2row "5")).getD "" = "" ∧
    (rowTransactionId (C2row "7")).getD "" = "" ∧
    (parse_row "14274656" (C2row "5")).map (fun t => t.transaction_id)
      ≠ (parse_row "14274656" (C2row "7")).map (fun t => t.transaction_id) := by
  refine ⟨by decide, by decide, by decide, ?_⟩
  decide

/-- C2 (amended): the generated fallback external id is a deterministic
function of the row's date, normalized description, normalized note, the
first non-null *and nonzero* equivalent amount (else `"0"`), account,
document number and counterparty account; so rows differing only in
whitespace/case of description and note (all other components equal) get
identical ids. -/
theorem parse_row_fallback_id_normalized (acct : String) (r1 r2 : List String)
    (hs1 : (parse_row acct r1).isSome = true)
    (hs2 : (parse_row acct r2).isSome = true)
    (hgen1 : (rowTransactionId r1).getD "" = "")
    (hgen2 : (rowTransactionId r2).getD "" = "")
    (hdate : rowDate r1 = rowDate r2)
    (hdesc : pyLower (pyStrip ((rowDescription r1).getD ""))
               = pyLower (pyStrip ((rowDescription r2).getD "")))
    (hnote : pyLower (pyStrip ((rowAdditionalInfo r1).getD ""))
               = pyLower (pyStrip ((rowAdditionalInfo r2).getD "")))
    (hamt : firstTruthyAmount (rowPaidOutEquiv r1) (rowPaidInEquiv r1)
              = firstTruthyAmount (rowPaidOutEquiv r2) (rowPaidInEquiv r2))
    (hdoc : pyStrip ((rowDocumentNumber r1).getD "") = pyStrip ((rowDocumentNumber r2).getD ""))
    (hcp : pyStrip ((rowPartnerAccount r1).getD "") = pyStrip ((rowPartnerAccount r2).getD "")) :
    (parse_row acct r1).map (fun t => t.transaction_id)
      = (parse_row acct r2).map (fun t => t.transaction_id) := by
  rw [parse_row_generated_id acct r1 hs1 hgen1, parse_row_generated_id acct r2 hs2 hgen2,
    hdate]
  have hfun : (fun d => generate_fallback_id d (rowDescription r1) (rowAdditionalInfo r1)
        (rowPaidOutEquiv r1) (rowPaidInEquiv r1) acct
        (rowDocumentNumber r1) (rowPartnerAccount r1))
      = (fun d => generate_fallback_id d (rowDescription r2) (rowAdditionalInfo r2)
        (rowPaidOutEquiv r2) (rowPaidInEquiv r2) acct
        (rowDocumentNumber r2) (rowPartnerAccount r2)) := by
    funext d
    unfold generate_fallback_id
    rw [hdesc, hnote, hdoc, hcp,
      fallbackAmountStr_congr (rowPaidOutEquiv r1) (rowPaidInEquiv r1)
        (rowPaidOutEquiv r2) (rowPaidInEquiv r2) hamt]
  rw [hfun]

/-- Witness for the amended C2: two rows differing only in whitespace and
letter case of description and note receive the same generated id. -/
theorem parse_row_fallback_id_normalized_witness :
    ((parse_row "14274656" C2wrow1).isSome = true) ∧
    ((parse_row "14274656" C2wrow2).isSome = true) ∧
    ((rowTransactionId C2wrow1).getD "" = "") ∧
    (rowDate C2wrow1 = rowDate C2wrow2) ∧
    (firstTruthyAmount (rowPaidOutEquiv C2wrow1) (rowPaidInEquiv C2wrow1)
       = firstTruthyAmount (rowPaidOutEquiv C2wrow2) (rowPaidInEquiv C2wrow2)) ∧
    ((parse_row "14274656" C2wrow1).map (fun t => t.transaction_id)
       = (parse_row "14274656" C2wrow2).map (fun t => t.transaction_id)) :=
  ⟨by decide, by decide, by decide, by decide, by decide,
   parse_row_fallback_id_normalized "14274656" C2wrow1 C2wrow2
     (by decide) (by decide) (by decide) (by decide) (by decide) (by decide)
     (by decide) (by decide) (by decide) (by decide)⟩

/-! ## Claims: batch runner (C4, C6, C7) -/

/-- C4: when classification of one batch fails, the runner appends exactly
one batch-level error string naming that batch, still increments `processed`
by the batch's record count, leaves the store (and `categorized`) untouched
by that batch, and continues with the next batch from that state — so the
failure neither terminates the run nor affects what the other batches
apply. -/
theorem run_batches_batch_failure
    (classify : List TransactionForAI → Except String (List AiResult))
    (qfail : Nat → Option String) (transaction_ids : List Nat)
    (fuel batch_num : Nat) (s : RunState) (e : String)
    (hcancel : s.task.cancel_requested = false)
    (hq : qfail batch_num = none)
    (hfound : (queryBatch s.db (batch_slice transaction_ids batch_num)).isEmpty = false)
    (hfail : classify (prepare_transactions_for_ai
               (queryBatch s.db (batch_slice transaction_ids batch_num))) = .error e) :
    run_batches classify qfail transaction_ids (fuel + 1) batch_num s
      = run_batches classify qfail transaction_ids fuel (batch_num + 1)
          { s with task := { s.task with
              errors := s.task.errors ++ [batchErrMsg batch_num e],
              processed := s.task.processed
                + (queryBatch s.db (batch_slice transaction_ids batch_num)).length } } := by
  rw [run_batches]
  simp only [hcancel, hq, hfound, hfail, Bool.false_eq_true, if_false]

/-- Witness for C4 at a concrete failing batch. -/
theorem run_batches_batch_failure_witness :
    ((⟨TaskState.init 2, C4db⟩ : RunState).task.cancel_requested = false) ∧
    ((queryBatch C4db (batch_slice [1, 2] 0)).isEmpty = false) ∧
    (run_batches C4classify (fun _ => none) [1, 2] 1 0 ⟨TaskState.init 2, C4db⟩
      = run_batches C4classify (fun _ => none) [1, 2] 0 1
          { task := { TaskState.init 2 with
              errors := [batchErrMsg 0 "service unavailable"],
              processed := 2 },
            db := C4db }) :=
  ⟨by decide, by decide, by
    have h := run_batches_batch_failure C4classify (fun _ => none) [1, 2] 0 0
      ⟨TaskState.init 2, C4db⟩ "service unavailable" (by decide) rfl (by decide) rfl
    rw [h]
    decide⟩

/-- Applying batch results changes categories only: the id column of the
store is untouched. -/
theorem apply_batch_results_id_map (results : List AiResult) (batch_ids : List Nat)
    (db : List Transaction) :
    (apply_batch_results results batch_ids db).map (fun t => t.id)
      = db.map (fun t => t.id) := by
  unfold apply_batch_results
  rw [List.map_map]
  refine List.map_congr_left (fun t ht => ?_)
  simp only [Function.comp]
  by_cases h : t.id ∈ batch_ids
  · cases hr : result_map_find results t.id with
    | none => simp [h, hr]
    | some res => simp [h, hr, update_transaction]
  · simp [h]

/-- With primary-key-distinct rows, a batch query returns at most as many
rows as it was given ids. -/
theorem queryBatch_length_le (db : List Transaction) (batch_ids : List Nat)
    (h : (db.map (fun t => t.id)).Nodup) :
    (queryBatch db batch_ids).length ≤ batch_ids.length := by
  have hsub : ((queryBatch db batch_ids).map (fun t => t.id)).Sublist (db.map (fun t => t.id)) :=
    (List.filter_sublist db).map _
  have hnd : ((queryBatch db batch_ids).map (fun t => t.id)).Nodup := h.sublist hsub
  have hss : ((queryBatch db batch_ids).map (fun t => t.id)) ⊆ batch_ids := by
    intro x hx
    rcases List.mem_map.mp hx with ⟨t, ht, rfl⟩
    have ht' : t ∈ db.filter (fun r => decide (r.id ∈ batch_ids)) := ht
    exact of_decide_eq_true
      (@List.of_mem_filter _ (fun r : Transaction => decide (r.id ∈ batch_ids)) t db ht')
  have hle := (List.subperm_of_subset hnd hss).length_le
  simpa using hle

/-- Each pass over the remaining batches adds at most the number of ids not
yet covered by earlier batches to `processed`. -/
theorem run_batches_processed_le
    (classify : List TransactionForAI → Except String (List AiResult))
    (qfail : Nat → Option String) (tids : List Nat) :
    ∀ fuel batch_num s, (s.db.map (fun t => t.id)).Nodup →
      (run_batches classify qfail tids fuel batch_num s).1.task.processed
        ≤ s.task.processed + (tids.length - batch_num * BATCH_SIZE) := by
  intro fuel
  induction fuel with
  | zero =>
    intro b s hnd
    simp [run_batches]
  | succ fuel ih =>
    intro b s hnd
    rw [run_batches]
    by_cases hc : s.task.cancel_requested = true
    · rw [if_pos hc]
      simp
    · rw [if_neg hc]
      cases hq : qfail b with
      | some e => simp
      | none =>
        simp only []
        by_cases hfe : (queryBatch s.db (batch_slice tids b)).isEmpty = true
        · simp only [hfe, if_true]
          have h1 := ih (b + 1) s hnd
          refine le_trans h1 (Nat.add_le_add_left (Nat.sub_le_sub_left ?_ _) _)
          simp only [BATCH_SIZE]
          omega
        · simp only [hfe, if_false, Bool.false_eq_true]
          have hlen : (queryBatch s.db (batch_slice tids b)).length
              ≤ min BATCH_SIZE (tids.length - b * BATCH_SIZE) := by
            have h2 := queryBatch_length_le s.db (batch_slice tids b) hnd
            have h3 : (batch_slice tids b).length
                = min BATCH_SIZE (tids.length - b * BATCH_SIZE) := by
              simp [batch_slice, Nat.min_comm]
            omega
          cases hcl : classify (prepare_transactions_for_ai
              (queryBatch s.db (batch_slice tids b))) with
          | ok results =>
            have hnd' : ((apply_batch_results results (batch_slice tids b) s.db).map
                (fun t => t.id)).Nodup := by
              rw [apply_batch_results_id_map]
              exact hnd
            have h1 := ih (b + 1) ⟨{ s.task with
                categorized := s.task.categorized
                  + countAssigned results (queryBatch s.db (batch_slice tids b)),
                processed := s.task.processed
                  + (queryBatch s.db (batch_slice tids b)).length },
              apply_batch_results results (batch_slice tids b) s.db⟩ hnd'
            dsimp only at h1
            simp only [BATCH_SIZE] at h1 hlen ⊢
            omega
          | error e =>
            have h1 := ih (b + 1) ⟨{ s.task with
                errors := s.task.errors ++ [batchErrMsg b e],
                processed := s.task.processed
                  + (queryBatch s.db (batch_slice tids b)).length }, s.db⟩ hnd
            dsimp only at h1
            simp only [BATCH_SIZE] at h1 hlen ⊢
            omega

theorem finish_run_processed (s2 : RunState) (t1 : Nat) :
    (finish_run s2 t1).task.processed = s2.task.processed := by
  unfold finish_run
  by_cases h : s2.task.status = TaskStatus.running <;> simp [h]

theorem fail_run_processed (s2 : RunState) (e : String) :
    (fail_run s2 e).task.processed = s2.task.processed := rfl

/-- C6: throughout a background run started on a fresh task whose `total` is
the number of eligible record ids, `processed` never exceeds `total`: it is
bounded after the full run and after any number of completed batches. -/
theorem run_categorization_processed_le_total
    (classify : List TransactionForAI → Except String (List AiResult))
    (qfail : Nat → Option String) (tids : List Nat) (t0 t1 : Nat) (s : RunState)
    (hnodup : (s.db.map (fun t => t.id)).Nodup)
    (htot : s.task.total = tids.length)
    (hproc : s.task.processed = 0) :
    ((run_categorization_sync classify qfail tids t0 t1 s).task.processed ≤ s.task.total) ∧
    (∀ fuel,
      (run_batches classify qfail tids fuel 0 (start_running s t0)).1.task.processed
        ≤ s.task.total) := by
  have hpart : ∀ fuel,
      (run_batches classify qfail tids fuel 0 (start_running s t0)).1.task.processed
        ≤ s.task.total := by
    intro fuel
    have h1 : (run_batches classify qfail tids fuel 0 (start_running s t0)).1.task.processed
        ≤ s.task.processed + (tids.length - 0 * BATCH_SIZE) :=
      run_batches_processed_le classify qfail tids fuel 0 (start_running s t0)
        (by simpa [start_running] using hnodup)
    rw [htot]
    omega
  refine ⟨?_, hpart⟩
  have h2 := hpart (total_batches tids)
  unfold run_categorization_sync
  cases hm : (run_batches classify qfail tids (total_batches tids) 0 (start_running s t0)).2 with
  | none =>
    show (finish_run (run_batches classify qfail tids (total_batches tids) 0
      (start_running s t0)).1 t1).task.processed ≤ s.task.total
    rw [finish_run_processed]
    exact h2
  | some e =>
    show (fail_run (run_batches classify qfail tids (total_batches tids) 0
      (start_running s t0)).1 e).task.processed ≤ s.task.total
    rw [fail_run_processed]
    exact h2

/-- Witness for C6 on a one-record run. -/
theorem run_categorization_processed_le_total_witness :
    ((C6db.map (fun t => t.id)).Nodup) ∧
    ((⟨TaskState.init 1, C6db⟩ : RunState).task.total = [10].length) ∧
    ((⟨TaskState.init 1, C6db⟩ : RunState).task.processed = 0) ∧
    ((run_categorization_sync C6classify (fun _ => none) [10] 3 4
        ⟨TaskState.init 1, C6db⟩).task.processed
      ≤ (⟨TaskState.init 1, C6db⟩ : RunState).task.total) :=
  ⟨by decide, by decide, by decide,
   (run_categorization_processed_le_total C6classify (fun _ => none) [10] 3 4
      ⟨TaskState.init 1, C6db⟩ (by decide) (by decide) (by decide)).1⟩

/-! ## Claims: terminal states and `completed_at` (C7) -/

theorem finish_run_completed_at (s2 : RunState) (t1 : Nat) :
    (finish_run s2 t1).task.completed_at = some t1 := by
  unfold finish_run
  by_cases h : s2.task.status = TaskStatus.running <;> simp [h]

theorem finish_run_status (s2 : RunState) (t1 : Nat) :
    (finish_run s2 t1).task.status = TaskStatus.completed ∨
    (finish_run s2 t1).task.status = s2.task.status := by
  unfold finish_run
  by_cases h : s2.task.status = TaskStatus.running
  · left
    simp [h]
  · right
    simp [h]

/-- The batch loop never touches `completed_at` and only ever moves the
status to `cancelled` (or leaves it alone). -/
theorem run_batches_preserves
    (classify : List TransactionForAI → Except String (List AiResult))
    (qfail : Nat → Option String) (tids : List Nat) :
    ∀ fuel batch_num s,
      ((run_batches classify qfail tids fuel batch_num s).1.task.completed_at
         = s.task.completed_at) ∧
      ((run_batches classify qfail tids fuel batch_num s).1.task.status = s.task.status ∨
       (run_batches classify qfail tids fuel batch_num s).1.task.status
         = TaskStatus.cancelled) := by
  intro fuel
  induction fuel with
  | zero =>
    intro b s
    simp [run_batches]
  | succ fuel ih =>
    intro b s
    rw [run_batches]
    by_cases hc : s.task.cancel_requested = true
    · rw [if_pos hc]
      exact ⟨rfl, Or.inr rfl⟩
    · rw [if_neg hc]
      cases hq : qfail b with
      | some e => exact ⟨rfl, Or.inl rfl⟩
      | none =>
        simp only []
        by_cases hfe : (queryBatch s.db (batch_slice tids b)).isEmpty = true
        · simp only [hfe, if_true]
          exact ih (b + 1) s
        · simp only [hfe, if_false, Bool.false_eq_true]
          cases hcl : classify (prepare_transactions_for_ai
              (queryBatch s.db (batch_slice tids b))) with
          | ok results =>
            have h1 := ih (b + 1) ⟨{ s.task with
                categorized := s.task.categorized
                  + countAssigned results (queryBatch s.db (batch_slice tids b)),
                processed := s.task.processed
                  + (queryBatch s.db (batch_slice tids b)).length },
              apply_batch_results results (batch_slice tids b) s.db⟩
            exact ⟨h1.1, h1.2⟩
          | error e =>
            have h1 := ih (b + 1) ⟨{ s.task with
                errors := s.task.errors ++ [batchErrMsg b e],
                processed := s.task.processed
                  + (queryBatch s.db (batch_slice tids b)).length }, s.db⟩
            exact ⟨h1.1, h1.2⟩

/-- C7 (amended): a run that ends `completed` or `cancelled` records
`completedAt`; but a run that ends `failed` through an uncaught failure
outside the per-batch handling leaves `completedAt` unset. -/
theorem run_categorization_terminal_timestamps
    (classify : List TransactionForAI → Except String (List AiResult))
    (qfail : Nat → Option String) (tids : List Nat) (t0 t1 : Nat) (s : RunState)
    (hfresh : s.task.completed_at = none) :
    (((run_categorization_sync classify qfail tids t0 t1 s).task.status = TaskStatus.completed ∨
      (run_categorization_sync classify qfail tids t0 t1 s).task.status = TaskStatus.cancelled) →
      (run_categorization_sync classify qfail tids t0 t1 s).task.completed_at = some t1) ∧
    ((run_categorization_sync classify qfail tids t0 t1 s).task.status = TaskStatus.failed →
      (run_categorization_sync classify qfail tids t0 t1 s).task.completed_at = none) := by
  have hp := run_batches_preserves classify qfail tids (total_batches tids) 0 (start_running s t0)
  unfold run_categorization_sync
  cases hm : (run_batches classify qfail tids (total_batches tids) 0 (start_running s t0)).2 with
  | none =>
    constructor
    · intro _
      show (finish_run (run_batches classify qfail tids (total_batches tids) 0
        (start_running s t0)).1 t1).task.completed_at = some t1
      exact finish_run_completed_at _ t1
    · intro hfail
      exfalso
      have hfail' : (finish_run (run_batches classify qfail tids (total_batches tids) 0
          (start_running s t0)).1 t1).task.status = TaskStatus.failed := hfail
      rcases finish_run_status (run_batches classify qfail tids (total_batches tids) 0
          (start_running s t0)).1 t1 with h | h
      · rw [h] at hfail'
        exact TaskStatus.noConfusion hfail'
      · rw [h] at hfail'
        rcases hp.2 with h2 | h2
        · rw [h2] at hfail'
          exact TaskStatus.noConfusion hfail'
        · rw [h2] at hfail'
          exact TaskStatus.noConfusion hfail'
  | some e =>
    constructor
    · intro hcc
      exfalso
      have hcc' : (fail_run (run_batches classify qfail tids (total_batches tids) 0
          (start_running s t0)).1 e).task.status = TaskStatus.completed ∨
          (fail_run (run_batches classify qfail tids (total_batches tids) 0
          (start_running s t0)).1 e).task.status = TaskStatus.cancelled := hcc
      rcases hcc' with h | h
      · exact TaskStatus.noConfusion h
      · exact TaskStatus.noConfusion h
    · intro _
      show (fail_run (run_batches classify qfail tids (total_batches tids) 0
        (start_running s t0)).1 e).task.completed_at = none
      have : (fail_run (run_batches classify qfail tids (total_batches tids) 0
          (start_running s t0)).1 e).task.completed_at
          = (run_batches classify qfail tids (total_batches tids) 0
              (start_running s t0)).1.task.completed_at := rfl
      rw [this, hp.1]
      exact hfresh

/-- C7 (counterexample): a store failure on the batch query escapes the
per-batch handling; the task ends in the terminal `failed` state with
`completed_at` still unset — the claim says every terminal state records
the timestamp. -/
theorem run_categorization_failed_missing_completed_at :
    ((run_categorization_sync C7classify C7qfail [1] 10 20
        ⟨TaskState.init 1, []⟩).task.status = TaskStatus.failed) ∧
    ((run_categorization_sync C7classify C7qfail [1] 10 20
        ⟨TaskState.init 1, []⟩).task.completed_at = none) := by
  decide

/-- Witness for the amended C7 on a successful run. -/
theorem run_categorization_terminal_timestamps_witness :
    ((⟨TaskState.init 1, C6db⟩ : RunState).task.completed_at = none) ∧
    ((((run_categorization_sync C7classify (fun _ => none) [10] 5 9
          ⟨TaskState.init 1, C6db⟩).task.status = TaskStatus.completed ∨
       (run_categorization_sync C7classify (fun _ => none) [10] 5 9
          ⟨TaskState.init 1, C6db⟩).task.status = TaskStatus.cancelled) →
       (run_categorization_sync C7classify (fun _ => none) [10] 5 9
          ⟨TaskState.init 1, C6db⟩).task.completed_at = some 9) ∧
     ((run_categorization_sync C7classify (fun _ => none) [10] 5 9
          ⟨TaskState.init 1, C6db⟩).task.status = TaskStatus.failed →
       (run_categorization_sync C7classify (fun _ => none) [10] 5 9
          ⟨TaskState.init 1, C6db⟩).task.completed_at = none)) :=
  ⟨by decide,
   run_categorization_terminal_timestamps C7classify (fun _ => none) [10] 5 9
     ⟨TaskState.init 1, C6db⟩ (by decide)⟩

/-! ## Claims: task registry (C5) -/

/-- C5 (amended): a *running* task does guard the entry point — if the
registry holds a running task, `start` returns that task's identity and
status and the registry is unchanged, so no second task is created. -/
theorem start_categorization_running_guard
    (reg : List (String × TaskState)) (db : List Transaction) (fresh_task_id : String)
    (tid : String) (task : TaskState)
    (h : find_running reg = some (tid, task)) :
    start_categorization reg db fresh_task_id
      = (reg, ⟨some tid, task.status.value, "A categorization task is already running",
               task.total, task.processed, task.categorized⟩) := by
  unfold start_categorization
  rw [h]

/-- C5 (counterexample): the entry point only checks for a *running* task.
After one `start` the registry holds an active (pending) task, yet a second
`start` creates another task; once both spawned runners execute their first
statement, two tasks are simultaneously in the running state.  The event
order is realizable: each `start` handler runs before either worker thread
is scheduled. -/
theorem start_categorization_two_running :
    ((C5reg1.filter (fun p => isActiveTask p.2)).length = 1) ∧
    (C5reg2.length = 2) ∧
    (count_running C5reg4 = 2) := by
  decide

/-- Witness for the amended C5. -/
theorem start_categorization_running_guard_witness :
    (find_running C5wreg = some ("cccc0000", C5wtask)) ∧
    (start_categorization C5wreg C5db "dddd4444"
      = (C5wreg, ⟨some "cccc0000", "running", "A categorization task is already running",
                  7, 3, 0⟩)) :=
  ⟨by decide, by
    have h := start_categorization_running_guard C5wreg C5db "dddd4444" "cccc0000" C5wtask
      (by decide)
    rw [h]
    decide⟩

/-! ## Claims: upload entry point (C8, C9, C10) -/

/-- C8: when a concurrent identical upload has already inserted the record
between the duplicate query (store state `[]`) and the insert (store state
`C8ledger`), the unique-constraint violation raised by the store propagates
out of `save_transactions` unhandled: the upload fails with a server error
instead of succeeding with the record counted as a duplicate. -/
theorem upload_constraint_violation_fatal :
    upload_csv (some "account_statement_14274656_x.csv") C8rows [] C8ledger
      = .error (500,
          "UNIQUE constraint failed: transactions.transaction_id, transactions.source_account") := by
  rfl

/-- C9: when parsing succeeds (three or more rows) but every data row is
dropped, the upload fails with the client-visible "No valid transactions"
error before touching the store — it does not return success with zero
accepted records. -/
theorem upload_no_valid_transactions (fn : String) (rows : List (List String))
    (dbQ dbI : List TransactionCreate)
    (hfn0 : fn ≠ "")
    (hfn1 : strEndsWith fn ".csv" = true)
    (hlen : 3 ≤ rows.length)
    (hdrop : (rows.drop 2).filterMap (parse_row (extract_account_number fn)) = []) :
    upload_csv (some fn) rows dbQ dbI
      = .error (400, "No valid transactions found in CSV") := by
  unfold upload_csv parse_csv_content
  rw [if_neg (show ¬((some fn).getD "" = "") from hfn0)]
  rw [if_neg (show ¬((!strEndsWith ((some fn).getD "") ".csv") = true) by simp [hfn1])]
  rw [if_neg (show ¬(rows.length < 3) by omega)]
  simp [hdrop]

/-- Witness for C9: a three-row file whose only data row is structurally
short, so it is silently dropped. -/
theorem upload_no_valid_transactions_witness :
    ("statement.csv" ≠ "") ∧
    (strEndsWith "statement.csv" ".csv" = true) ∧
    (3 ≤ C9rows.length) ∧
    ((C9rows.drop 2).filterMap (parse_row (extract_account_number "statement.csv")) = []) ∧
    (upload_csv (some "statement.csv") C9rows [] []
      = .error (400, "No valid transactions found in CSV")) :=
  ⟨by decide, by decide, by decide, by decide,
   upload_no_valid_transactions "statement.csv" C9rows [] []
     (by decide) (by decide) (by decide) (by decide)⟩

/-- C10: a missing/empty filename or one not ending in `.csv` is rejected
with a client error before any parsing or store access, so no record can be
created from such a request. -/
theorem upload_filename_guard (filename : Option String) (rows : List (List String))
    (dbQ dbI : List TransactionCreate) :
    ((filename.getD "" = "") →
       upload_csv filename rows dbQ dbI = .error (400, "No filename provided")) ∧
    (filename.getD "" ≠ "" → strEndsWith (filename.getD "") ".csv" = false →
       upload_csv filename rows dbQ dbI = .error (400, "File must be a CSV file")) := by
  constructor
  · intro h
    unfold upload_csv
    rw [if_pos h]
  · intro h1 h2
    unfold upload_csv
    rw [if_neg h1, if_pos (show (!strEndsWith (filename.getD "") ".csv") = true by simp [h2])]

/-- Witness for C10: a request with no filename and one with a `.txt` file. -/
theorem upload_filename_guard_witness :
    (upload_csv none [] [] [] = .error (400, "No filename provided")) ∧
    (upload_csv (some "data.txt") [] [] [] = .error (400, "File must be a CSV file")) :=
  ⟨(upload_filename_guard none [] [] []).1 (by decide),
   (upload_filename_guard (some "data.txt") [] [] []).2 (by decide) (by decide)⟩
